import Mathlib

/-!
Shallow embedding of the FidelityFX reflection-denoiser kernels
(ffx_denoiser_reflections_reproject.h and
ffx_denoiser_reflections_prefilter.h).

Shader floating-point values are modelled as rationals, int2 values as
pairs of integers, float4 values as Vec4 and float3 values as Vec3.
Thread-group shared memory is modelled as explicit state (total maps from
an int2 index to the stored value), and the effects of one kernel thread
are modelled as a trace of events: writes to the groupshared tiles,
barriers, and stores to external output textures.  Transcendental shader
intrinsics (exp, pow, normalize, length), the texture accessors and the
tuning macros come from the common header and from the host engine, which
are not part of this repository slice; they are abstracted as fields of an
environment record.
-/

set_option maxRecDepth 8000

/-- A float3 shader value. -/
structure Vec3 where
  x : ℚ
  y : ℚ
  z : ℚ
deriving DecidableEq, Repr

/-- A float4 shader value (also used for the floatx radiance type, which
supports the .xyzw and .a accessors in the source). -/
structure Vec4 where
  x : ℚ
  y : ℚ
  z : ℚ
  w : ℚ
deriving DecidableEq, Repr

def Vec3.add (a b : Vec3) : Vec3 := ⟨a.x + b.x, a.y + b.y, a.z + b.z⟩

def Vec3.sub (a b : Vec3) : Vec3 := ⟨a.x - b.x, a.y - b.y, a.z - b.z⟩

def Vec3.scale (c : ℚ) (a : Vec3) : Vec3 := ⟨c * a.x, c * a.y, c * a.z⟩

/-- Componentwise dot product of two float3 values. -/
def dot3 (a b : Vec3) : ℚ := a.x * b.x + a.y * b.y + a.z * b.z

instance : Add Vec3 := ⟨Vec3.add⟩
instance : Zero Vec3 := ⟨⟨0, 0, 0⟩⟩

def Vec4.add (a b : Vec4) : Vec4 := ⟨a.x + b.x, a.y + b.y, a.z + b.z, a.w + b.w⟩

def Vec4.sub (a b : Vec4) : Vec4 := ⟨a.x - b.x, a.y - b.y, a.z - b.z, a.w - b.w⟩

/-- Componentwise product, as the shader writes radiance * radiance. -/
def Vec4.mul (a b : Vec4) : Vec4 := ⟨a.x * b.x, a.y * b.y, a.z * b.z, a.w * b.w⟩

/-- Multiplication of a float4 by a float scalar. -/
def Vec4.scale (c : ℚ) (a : Vec4) : Vec4 := ⟨c * a.x, c * a.y, c * a.z, c * a.w⟩

/-- Division of a float4 by a float scalar. -/
def Vec4.divScalar (a : Vec4) (c : ℚ) : Vec4 := ⟨a.x / c, a.y / c, a.z / c, a.w / c⟩

/-- Componentwise absolute value of a float4. -/
def Vec4.abs4 (a : Vec4) : Vec4 := ⟨|a.x|, |a.y|, |a.z|, |a.w|⟩

/-- The .xyz swizzle of a float4. -/
def Vec4.xyz (a : Vec4) : Vec3 := ⟨a.x, a.y, a.z⟩

/-- Writing through the .xyz swizzle of a float4, leaving .w unchanged. -/
def Vec4.withXyz (a : Vec4) (v : Vec3) : Vec4 := ⟨v.x, v.y, v.z, a.w⟩

instance : Add Vec4 := ⟨Vec4.add⟩
instance : Zero Vec4 := ⟨⟨0, 0, 0, 0⟩⟩

theorem Vec4.add_def (a b : Vec4) : a + b = ⟨a.x + b.x, a.y + b.y, a.z + b.z, a.w + b.w⟩ := rfl

theorem Vec4.zero_def : (0 : Vec4) = ⟨0, 0, 0, 0⟩ := rfl

instance : AddCommMonoid Vec4 where
  add_assoc a b c := by simp [Vec4.add_def, add_assoc]
  zero_add a := by simp [Vec4.add_def, Vec4.zero_def]
  add_zero a := by simp [Vec4.add_def, Vec4.zero_def]
  add_comm a b := by simp [Vec4.add_def]; refine ⟨?_, ?_, ?_, ?_⟩ <;> ring
  nsmul := nsmulRec

/-- The HLSL saturate intrinsic: clamp to the unit interval. -/
def saturate (q : ℚ) : ℚ := min 1 (max 0 q)

/-- The HLSL frac intrinsic: x minus the largest integer not above x. -/
def fracQ (q : ℚ) : ℚ := q - (⌊q⌋ : ℚ)

/-- Conversion of a float to an int as an int2 cast performs it:
truncation toward zero. -/
def truncQ (q : ℚ) : ℤ := Int.tdiv q.num q.den

/-- The HLSL lerp intrinsic on floats: lerp a b t = a + (b - a) * t. -/
def lerpQ (a b t : ℚ) : ℚ := a + (b - a) * t

/-- The HLSL lerp intrinsic applied through the .xyz swizzle. -/
def lerp3 (a b : Vec3) (t : ℚ) : Vec3 :=
  ⟨lerpQ a.x b.x t, lerpQ a.y b.y t, lerpQ a.z b.z t⟩

/-- Modelled from the spec: the environment of the two kernels.  The spec
says the library is always invoked by a host renderer that supplies input
textures (depth, normals, roughness, motion vectors, raw ray-traced
radiance) and consumes output textures, and that per-pixel history state
is persisted across frames in external textures owned by the host
renderer.  The texture accessors, the transcendental intrinsics and the
tuning constants below are declared in the common header
(ffx_denoiser_reflections_common.h) and by the host engine, neither of
which is part of this repository slice, so they are abstracted as opaque
fields; the rationals stand for shader floats. -/
structure Env where
  exp : ℚ → ℚ
  pow : ℚ → ℚ → ℚ
  length3 : Vec3 → ℚ
  normalize3 : Vec3 → Vec3
  LoadRadiance : ℤ × ℤ → Vec4
  LoadRayLength : ℤ × ℤ → ℚ
  LoadRoughness : ℤ × ℤ → ℚ
  LoadDepth : ℤ × ℤ → ℚ
  LoadWorldSpaceNormal : ℤ × ℤ → Vec3
  LoadMotionVector : ℤ × ℤ → ℚ × ℚ
  LoadWorldSpaceNormalHistory : ℤ × ℤ → Vec3
  LoadDepthHistory : ℤ × ℤ → ℚ
  LoadNeighborhood : ℤ × ℤ → ℤ × ℤ → Vec4 × ℚ × Vec3 × ℚ
  SampleWorldSpaceNormalHistory : ℚ × ℚ → Vec3
  SampleRadianceHistory : ℚ × ℚ → Vec4
  SampleRoughnessHistory : ℚ × ℚ → ℚ
  SampleDepthHistory : ℚ × ℚ → ℚ
  SampleVarianceHistory : ℚ × ℚ → ℚ
  SampleNumSamplesHistory : ℚ × ℚ → ℚ
  SampleAverageRadiance : ℚ × ℚ → Vec4
  GetLinearDepth : ℚ × ℚ → ℚ → ℚ
  IsGlossyReflection : ℚ → Bool
  IsMirrorReflection : ℚ → Bool
  ComputeTemporalVariance : Vec3 → Vec3 → ℚ
  Luminance : Vec3 → ℚ
  SamplesForRoughness : ℚ → ℚ
  RoundUp8 : ℤ × ℤ → ℚ × ℚ
  InvProjectPosition : Vec3 → Vec3
  ProjectPosition : Vec3 → Vec3
  MotionGet : ℚ × ℚ → ℚ × ℚ
  cameraPositionWs : Vec3
  Dimensions : ℚ × ℚ
  InvDimensions : ℚ × ℚ
  SampleCountIntersection : ℚ
  DISPATCH_OFFSET : ℤ × ℤ
  DISOCCLUSION_THRESHOLD : ℚ
  DISOCCLUSION_NORMAL_WEIGHT : ℚ
  DISOCCLUSION_DEPTH_WEIGHT : ℚ
  REPROJECTION_NORMAL_SIMILARITY_THRESHOLD : ℚ
  AVG_RADIANCE_LUMINANCE_WEIGHT : ℚ
  LOCAL_NEIGHBORHOOD_RADIUS : ℕ
  LocalNeighborhoodKernelWeight : ℤ → ℚ
  PREFILTER_NORMAL_SIGMA : ℚ
  PREFILTER_DEPTH_SIGMA : ℚ
  RADIANCE_WEIGHT_BIAS : ℚ
  RADIANCE_WEIGHT_VARIANCE_K : ℚ
  PREFILTER_VARIANCE_BIAS : ℚ
  PREFILTER_VARIANCE_WEIGHT : ℚ

/-- The groupshared tiles of the reproject kernel: g_ffx_dnsr_shared_0
(float4 radiance) and g_ffx_dnsr_shared_1 (float weight), indexed as
tile[idx.y][idx.x], modelled as total maps from the int2 index. -/
structure SharedRe where
  s0 : ℤ × ℤ → Vec4
  s1 : ℤ × ℤ → ℚ

/-- The groupshared tiles of the prefilter kernel: g_ffx_dnsr_shared_0
(float4 radiance), g_ffx_dnsr_shared_1 (float4 normal and variance) and
g_ffx_dnsr_shared_depth (float depth). -/
structure SharedPre where
  s0 : ℤ × ℤ → Vec4
  s1 : ℤ × ℤ → Vec4
  sdepth : ℤ × ℤ → ℚ

/-- The external textures a kernel may store to.  The first five are the
current-frame outputs the kernels write; the remaining names stand for the
per-pixel history textures, listed so that a store event could in
principle name them (the theorems show none does). -/
inductive Target where
  | RadianceReprojected
  | Variance
  | NumSamples
  | AverageRadiance
  | PrefilteredReflections
  | RadianceHistory
  | VarianceHistory
  | NumSamplesHistory
  | DepthHistory
  | NormalHistory
  | RoughnessHistory
deriving DecidableEq, Repr

/-- The payload of a texture store. -/
inductive StoreValue where
  | scalar (v : ℚ)
  | vector (v : Vec4)
  | vectorScalar (v : Vec4) (s : ℚ)
deriving DecidableEq, Repr

/-- One observable effect of a kernel thread. -/
inductive Event where
  | sharedWriteRe (idx : ℤ × ℤ) (radianceVariance : Vec4) (flWeight : ℚ)
  | sharedWritePre (idx : ℤ × ℤ) (radiance : Vec4) (normalVariance : Vec4) (depth : ℚ)
  | barrier
  | store (t : Target) (coord : ℤ × ℤ) (v : StoreValue)
deriving DecidableEq, Repr

/-- Whether an event is a write to a groupshared tile. -/
def Event.isSharedWrite : Event → Bool
  | .sharedWriteRe _ _ _ => true
  | .sharedWritePre _ _ _ _ => true
  | _ => false

/-- Whether a target names a per-pixel history texture. -/
def Target.isHistory : Target → Bool
  | .RadianceHistory => true
  | .VarianceHistory => true
  | .NumSamplesHistory => true
  | .DepthHistory => true
  | .NormalHistory => true
  | .RoughnessHistory => true
  | _ => false

/-- Whether an event is a store to a per-pixel history texture. -/
def Event.isHistoryStore : Event → Bool
  | .store t _ _ => t.isHistory
  | _ => false

/-- Whether an event is a store of reprojected radiance, variance or
sample count at the given pixel coordinate. -/
def Event.isReprojectStoreAt (c : ℤ × ℤ) : Event → Bool
  | .store .RadianceReprojected coord _ => coord = c
  | .store .Variance coord _ => coord = c
  | .store .NumSamples coord _ => coord = c
  | _ => false

/-- Whether an event is a store to the given target at the given pixel. -/
def Event.isStoreTo (t : Target) (c : ℤ × ℤ) : Event → Bool
  | .store u coord _ => u = t && coord = c
  | _ => false

/-- The FFX_DNSR_Reflections_NeighborhoodSample struct of the reproject
kernel: only the packed radiance. -/
structure NeighborhoodSampleRe where
  radiance : Vec4

/-- FFX_DNSR_Reflections_LoadFromGroupSharedMemory (reproject kernel):
reads g_ffx_dnsr_shared_0[idx.y][idx.x]. -/
def FFX_DNSR_Reflections_LoadFromGroupSharedMemory_Re (sigma : SharedRe) (idx : ℤ × ℤ) : NeighborhoodSampleRe :=
  ⟨sigma.s0 idx⟩

/-- FFX_DNSR_Reflections_StoreInGroupSharedMemory (reproject kernel):
writes the radiance-variance float4 to tile 0 and the weight to tile 1 at
group_thread_id. -/
def FFX_DNSR_Reflections_StoreInGroupSharedMemory_Re (sigma : SharedRe) (group_thread_id : ℤ × ℤ)
    (radiance_variance : Vec4) (flWeight : ℚ) : SharedRe where
  s0 := fun p => if p = group_thread_id then radiance_variance else sigma.s0 p
  s1 := fun p => if p = group_thread_id then flWeight else sigma.s1 p

/-- The int2 offset[4] table of both InitializeGroupSharedMemory
functions: the four 8x8 blocks of the 16x16 region. -/
def initOffsets : ℕ → ℤ × ℤ
  | 0 => (0, 0)
  | 1 => (8, 0)
  | 2 => (0, 8)
  | _ => (8, 8)

/-- FFX_DNSR_Reflections_InitializeGroupSharedMemory (reproject kernel):
loads the 16x16 region into registers with 4 8x8 blocks, then moves the
registers to groupshared memory.  Returns the updated tiles and the list
of shared-memory writes performed. -/
def FFX_DNSR_Reflections_InitializeGroupSharedMemory_Re (env : Env)
    (dispatch_thread_id group_thread_id : ℤ × ℤ) (_screen_size : ℤ × ℤ)
    (sigma : SharedRe) : SharedRe × List Event :=
  let dtid := dispatch_thread_id - env.DISPATCH_OFFSET
  let radiance : ℕ → Vec4 := fun i => env.LoadRadiance (dtid + initOffsets i)
  ([0, 1, 2, 3] : List ℕ).foldl
    (fun acc j =>
      (FFX_DNSR_Reflections_StoreInGroupSharedMemory_Re acc.1 (group_thread_id + initOffsets j) (radiance j) 0,
       acc.2 ++ [Event.sharedWriteRe (group_thread_id + initOffsets j) (radiance j) 0]))
    (sigma, [])

/-- FFX_DNSR_Reflections_LoadFromGroupSharedMemoryRaw. -/
def FFX_DNSR_Reflections_LoadFromGroupSharedMemoryRaw (sigma : SharedRe) (idx : ℤ × ℤ) : Vec4 :=
  sigma.s0 idx

/-- FFX_DNSR_Reflections_GetLuminanceWeight. -/
def FFX_DNSR_Reflections_GetLuminanceWeight (env : Env) (val : Vec3) : ℚ :=
  let luma := env.Luminance val
  let weight := max (env.exp (-luma * env.AVG_RADIANCE_LUMINANCE_WEIGHT)) (1/100)
  weight

/-- FFX_DNSR_Reflections_GetHitPositionReprojection: reconstructs the ray
length in view space, projects the hit position and reads the motion
texture there. -/
def FFX_DNSR_Reflections_GetHitPositionReprojection (env : Env) (dispatch_thread_id : ℤ × ℤ)
    (uv : ℚ × ℚ) (reflected_ray_length : ℚ) : ℚ × ℚ :=
  let z := env.LoadDepth dispatch_thread_id
  let view_space_ray := env.InvProjectPosition ⟨uv.1, uv.2, z⟩
  let surface_depth := env.length3 view_space_ray
  let ray_length := surface_depth + reflected_ray_length
  let view_space_ray2 := env.normalize3 view_space_ray
  let vHitPositionWs := env.cameraPositionWs + Vec3.scale ray_length view_space_ray2
  let projected := env.ProjectPosition vHitPositionWs
  let vHitPositionSs : ℚ × ℚ := (projected.x * env.Dimensions.1, projected.y * env.Dimensions.2)
  let m := env.MotionGet (vHitPositionSs.1 + 1/2, vHitPositionSs.2 + 1/2)
  (m.1 * env.InvDimensions.1, m.2 * env.InvDimensions.2)

/-- FFX_DNSR_Reflections_GetDisocclusionFactor: the product of a normal
agreement term and a depth agreement term, with the depth weight scaled
down for distant surfaces. -/
def FFX_DNSR_Reflections_GetDisocclusionFactor (env : Env) (normal history_normal : Vec3)
    (linear_depth history_linear_depth : ℚ) : ℚ :=
  let normalWeight := env.DISOCCLUSION_NORMAL_WEIGHT
  let depthWeight := env.DISOCCLUSION_DEPTH_WEIGHT * saturate (1 - linear_depth * (1/100))
  1 * env.exp (-|1 - max 0 (dot3 normal history_normal)| * normalWeight)
    * env.exp (-|history_linear_depth - linear_depth| / linear_depth * depthWeight)

/-- The FFX_DNSR_Reflections_Moments struct: mean and variance of a local
neighborhood. -/
structure FFX_DNSR_Reflections_Moments where
  mean : Vec4
  variance : Vec4
deriving DecidableEq, Repr

/-- The (2R+1)x(2R+1) neighborhood offsets (i, j), inner loop over i,
outer loop over j, both from -R to R, as iterated by
FFX_DNSR_Reflections_EstimateLocalNeighborhoodInGroup. -/
def neighborhoodOffsets (R : ℕ) : List (ℤ × ℤ) :=
  (List.range (2 * R + 1)).flatMap (fun (j : ℕ) =>
    (List.range (2 * R + 1)).map (fun (i : ℕ) => ((i : ℤ) - (R : ℤ), (j : ℤ) - (R : ℤ))))

/-- FFX_DNSR_Reflections_EstimateLocalNeighborhoodInGroup: accumulates
kernel-weighted radiance and squared radiance over the local neighborhood
in groupshared memory, then normalizes and forms |E[r^2] - mean^2|. -/
def FFX_DNSR_Reflections_EstimateLocalNeighborhoodInGroup (env : Env) (sigma : SharedRe)
    (group_thread_id : ℤ × ℤ) : FFX_DNSR_Reflections_Moments :=
  let acc := (neighborhoodOffsets env.LOCAL_NEIGHBORHOOD_RADIUS).foldl
    (fun (a : ℚ × Vec4 × Vec4) ij =>
      let radiance := (FFX_DNSR_Reflections_LoadFromGroupSharedMemory_Re sigma (group_thread_id + ij)).radiance
      let weight := env.LocalNeighborhoodKernelWeight ij.1 * env.LocalNeighborhoodKernelWeight ij.2
      (a.1 + weight, a.2.1 + Vec4.scale weight radiance, a.2.2 + Vec4.scale weight (radiance.mul radiance)))
    (0, 0, 0)
  let mean := acc.2.1.divScalar acc.1
  ⟨mean, (Vec4.sub (acc.2.2.divScalar acc.1) (mean.mul mean)).abs4⟩

/-- GetContactHardenedRadiance: loads the raw radiance (the ray length is
loaded but unused). -/
def GetContactHardenedRadiance (env : Env) (dispatch_thread_id : ℤ × ℤ) : Vec4 :=
  let radiance := env.LoadRadiance dispatch_thread_id
  let _flRayLength := env.LoadRayLength dispatch_thread_id
  radiance

/-- GetContactHardenedRadianceHistory: samples the radiance history. -/
def GetContactHardenedRadianceHistory (env : Env) (vUV : ℚ × ℚ) : Vec4 :=
  env.SampleRadianceHistory vUV

/-- The int2 spiral_offsets[8] table of the fallback search in
FFX_DNSR_Reflections_PickReprojection. -/
def spiralOffsets : List (ℤ × ℤ) :=
  [(1, 0), (1, 1), (0, 1), (-1, 1), (-1, 0), (-1, -1), (0, -1), (1, -1)]

/-- The spiral fallback search of FFX_DNSR_Reflections_PickReprojection:
starting from the current disocclusion factor and reprojection uv, samples
the eight spiral offsets at radii up to the roughness-dependent search
radius, keeps the best disocclusion factor found (moving the reprojection
uv along with it), and finally resamples the radiance history at the
resulting uv. -/
def pickSpiralSearch (env : Env) (screen_size : ℤ × ℤ) (roughness : ℚ) (normal : Vec3)
    (linear_depth disocclusion_factor0 : ℚ) (reprojection_uv0 : ℚ × ℚ) : ℚ × (ℚ × ℚ) × Vec4 :=
  let dudv : ℚ × ℚ := (1 / (screen_size.1 : ℚ), 1 / (screen_size.2 : ℚ))
  let rough_search_radius : ℕ := if roughness > 1/2 then 2 else 1
  let searched := (List.range' 1 rough_search_radius).foldl
    (fun (a : ℚ × (ℚ × ℚ)) r =>
      spiralOffsets.foldl
        (fun (b : ℚ × (ℚ × ℚ)) so =>
          let uvc : ℚ × ℚ := (b.2.1 + ((so.1 * (r : ℤ) : ℤ) : ℚ) * dudv.1,
                              b.2.2 + ((so.2 * (r : ℤ) : ℤ) : ℚ) * dudv.2)
          let history_normal2 := env.SampleWorldSpaceNormalHistory uvc
          let history_depth2 := env.SampleDepthHistory uvc
          let history_linear_depth2 := env.GetLinearDepth uvc history_depth2
          let weight := FFX_DNSR_Reflections_GetDisocclusionFactor env normal history_normal2
            linear_depth history_linear_depth2
          if weight > b.1 then (weight, uvc) else b)
        a)
    (disocclusion_factor0, reprojection_uv0)
  (searched.1, searched.2, GetContactHardenedRadianceHistory env searched.2)

/-- The 2x2 bilinear salvage of FFX_DNSR_Reflections_PickReprojection (the
rare slow path on edges): rebuilds the reprojected sample from the 2x2
interpolation neighborhood, masking each corner by an occlusion test
against half the threshold, mixing in the bilinear weights, normalizing by
their clamped sum, and recomputing the disocclusion factor from the
blended normal and depth. -/
def pickBilinearSalvage (env : Env) (screen_size : ℤ × ℤ) (normal : Vec3)
    (linear_depth : ℚ) (step1 : ℚ × (ℚ × ℚ) × Vec4) : ℚ × (ℚ × ℚ) × Vec4 :=
  let ruv := step1.2.1
  let uvx := fracQ ((screen_size.1 : ℚ) * ruv.1 + 1/2)
  let uvy := fracQ ((screen_size.2 : ℚ) * ruv.2 + 1/2)
  let reproject_texel_coords : ℤ × ℤ :=
    (truncQ ((screen_size.1 : ℚ) * ruv.1 - 1/2), truncQ ((screen_size.2 : ℚ) * ruv.2 - 1/2))
  let reprojection00 := GetContactHardenedRadiance env (reproject_texel_coords + (0, 0))
  let reprojection10 := GetContactHardenedRadiance env (reproject_texel_coords + (1, 0))
  let reprojection01 := GetContactHardenedRadiance env (reproject_texel_coords + (0, 1))
  let reprojection11 := GetContactHardenedRadiance env (reproject_texel_coords + (1, 1))
  let normal00 := env.LoadWorldSpaceNormalHistory (reproject_texel_coords + (0, 0))
  let normal10 := env.LoadWorldSpaceNormalHistory (reproject_texel_coords + (1, 0))
  let normal01 := env.LoadWorldSpaceNormalHistory (reproject_texel_coords + (0, 1))
  let normal11 := env.LoadWorldSpaceNormalHistory (reproject_texel_coords + (1, 1))
  let depth00 := env.GetLinearDepth ruv (env.LoadDepthHistory (reproject_texel_coords + (0, 0)))
  let depth10 := env.GetLinearDepth ruv (env.LoadDepthHistory (reproject_texel_coords + (1, 0)))
  let depth01 := env.GetLinearDepth ruv (env.LoadDepthHistory (reproject_texel_coords + (0, 1)))
  let depth11 := env.GetLinearDepth ruv (env.LoadDepthHistory (reproject_texel_coords + (1, 1)))
  let wx0 : ℚ := if FFX_DNSR_Reflections_GetDisocclusionFactor env normal normal00 linear_depth depth00 >
      env.DISOCCLUSION_THRESHOLD / 2 then 1 else 0
  let wy0 : ℚ := if FFX_DNSR_Reflections_GetDisocclusionFactor env normal normal10 linear_depth depth10 >
      env.DISOCCLUSION_THRESHOLD / 2 then 1 else 0
  let wz0 : ℚ := if FFX_DNSR_Reflections_GetDisocclusionFactor env normal normal01 linear_depth depth01 >
      env.DISOCCLUSION_THRESHOLD / 2 then 1 else 0
  let ww0 : ℚ := if FFX_DNSR_Reflections_GetDisocclusionFactor env normal normal11 linear_depth depth11 >
      env.DISOCCLUSION_THRESHOLD / 2 then 1 else 0
  let wx := wx0 * (1 - uvx) * (1 - uvy)
  let wy := wy0 * uvx * (1 - uvy)
  let wz := wz0 * (1 - uvx) * uvy
  let ww := ww0 * uvx * uvy
  let ws := max (wx + wy + wz + ww) (1/1000)
  let wxn := wx / ws
  let wyn := wy / ws
  let wzn := wz / ws
  let wwn := ww / ws
  let reprojection2 := Vec4.scale wxn reprojection00 + Vec4.scale wyn reprojection10 +
    Vec4.scale wzn reprojection01 + Vec4.scale wwn reprojection11
  let history_linear_depth2 := depth00 * wxn + depth10 * wyn + depth01 * wzn + depth11 * wwn
  let history_normal2 := Vec3.scale wxn normal00 + Vec3.scale wyn normal10 +
    Vec3.scale wzn normal01 + Vec3.scale wwn normal11
  (FFX_DNSR_Reflections_GetDisocclusionFactor env normal history_normal2 linear_depth history_linear_depth2,
   ruv, reprojection2)

/-- The final line of FFX_DNSR_Reflections_PickReprojection: a
disocclusion factor still below the threshold is clamped to exactly 0,
and a factor at or above the threshold is left unchanged. -/
def pickClampFinal (env : Env) (s : ℚ × (ℚ × ℚ) × Vec4) : ℚ × (ℚ × ℚ) × Vec4 :=
  (if s.1 < env.DISOCCLUSION_THRESHOLD then 0 else s.1, s.2)

/-- FFX_DNSR_Reflections_PickReprojection: chooses between the
surface-motion and hit-position reprojection, computes the disocclusion
factor, runs the spiral fallback search and the 2x2 bilinear salvage when
the factor stays below the threshold, and finally clamps any factor still
below the threshold to zero.  Returns (disocclusion_factor,
reprojection_uv, reprojection). -/
def FFX_DNSR_Reflections_PickReprojection (env : Env) (sigma : SharedRe)
    (dispatch_thread_id group_thread_id screen_size : ℤ × ℤ)
    (roughness ray_length : ℚ) : ℚ × (ℚ × ℚ) × Vec4 :=
  let _local_neighborhood := FFX_DNSR_Reflections_EstimateLocalNeighborhoodInGroup env sigma group_thread_id
  let uv : ℚ × ℚ := (((dispatch_thread_id.1 : ℚ) + 1/2) / (screen_size.1 : ℚ),
                     ((dispatch_thread_id.2 : ℚ) + 1/2) / (screen_size.2 : ℚ))
  let normal := env.LoadWorldSpaceNormal dispatch_thread_id
  let surface_reprojection_uv := env.LoadMotionVector dispatch_thread_id
  let hit_reprojection_uv := FFX_DNSR_Reflections_GetHitPositionReprojection env dispatch_thread_id uv ray_length
  let surface_normal := env.SampleWorldSpaceNormalHistory surface_reprojection_uv
  let hit_normal := env.SampleWorldSpaceNormalHistory hit_reprojection_uv
  let surface_history := GetContactHardenedRadianceHistory env surface_reprojection_uv
  let hit_history := GetContactHardenedRadianceHistory env hit_reprojection_uv
  let hit_normal_similarity := dot3 (env.normalize3 hit_normal) (env.normalize3 normal)
  let surface_normal_similarity := dot3 (env.normalize3 surface_normal) (env.normalize3 normal)
  let _hit_roughness := env.SampleRoughnessHistory hit_reprojection_uv
  let _surface_roughness := env.SampleRoughnessHistory surface_reprojection_uv
  let picked : Vec3 × ℚ × (ℚ × ℚ) × Vec4 :=
    if hit_normal_similarity > env.REPROJECTION_NORMAL_SIMILARITY_THRESHOLD ∧
       hit_normal_similarity + 1/1000 > surface_normal_similarity then
      (hit_normal,
       env.GetLinearDepth hit_reprojection_uv (env.SampleDepthHistory hit_reprojection_uv),
       hit_reprojection_uv, hit_history)
    else
      (surface_normal,
       env.GetLinearDepth surface_reprojection_uv (env.SampleDepthHistory surface_reprojection_uv),
       surface_reprojection_uv, surface_history)
  let history_normal := picked.1
  let history_linear_depth := picked.2.1
  let reprojection_uv0 := picked.2.2.1
  let reprojection0 := picked.2.2.2
  let depth := env.LoadDepth dispatch_thread_id
  let linear_depth := env.GetLinearDepth uv depth
  let disocclusion_factor0 :=
    FFX_DNSR_Reflections_GetDisocclusionFactor env normal history_normal linear_depth history_linear_depth
  if disocclusion_factor0 > env.DISOCCLUSION_THRESHOLD then
    (disocclusion_factor0, reprojection_uv0, reprojection0)
  else
    let step1 : ℚ × (ℚ × ℚ) × Vec4 :=
      if disocclusion_factor0 < env.DISOCCLUSION_THRESHOLD then
        pickSpiralSearch env screen_size roughness normal linear_depth
          disocclusion_factor0 reprojection_uv0
      else
        (disocclusion_factor0, reprojection_uv0, reprojection0)
    let step2 : ℚ × (ℚ × ℚ) × Vec4 :=
      if step1.1 < env.DISOCCLUSION_THRESHOLD then
        pickBilinearSalvage env screen_size normal linear_depth step1
      else
        step1
    pickClampFinal env step2

/-- One iteration of the 8x8 -> 1 downsample loop at the end of
FFX_DNSR_Reflections_Reproject (loop variable i in {2, 4, 8}): threads
whose inner indices stay below 8 combine four tile entries and write the
sum back, and every thread then passes a group barrier. -/
def reprojectDownsampleStep (group_thread_id : ℤ × ℤ)
    (acc : SharedRe × List Event) (i : ℤ) : SharedRe × List Event :=
  let sigma := acc.1
  let ox := group_thread_id.1 * i
  let oy := group_thread_id.2 * i
  let ix := group_thread_id.1 * i + i / 2
  let iy := group_thread_id.2 * i + i / 2
  let next : SharedRe × List Event :=
    if ix < 8 ∧ iy < 8 then
      let rad_weight00 := FFX_DNSR_Reflections_LoadFromGroupSharedMemoryRaw sigma (ox, oy)
      let rad_weight10 := FFX_DNSR_Reflections_LoadFromGroupSharedMemoryRaw sigma (ox, iy)
      let rad_weight01 := FFX_DNSR_Reflections_LoadFromGroupSharedMemoryRaw sigma (ix, oy)
      let rad_weight11 := FFX_DNSR_Reflections_LoadFromGroupSharedMemoryRaw sigma (ix, iy)
      let sumColor := rad_weight00 + rad_weight01 + rad_weight10 + rad_weight11
      let sumWeight := sigma.s1 (ox, oy) + sigma.s1 (ix, oy) + sigma.s1 (ox, iy) + sigma.s1 (ix, iy)
      (FFX_DNSR_Reflections_StoreInGroupSharedMemory_Re sigma (ox, oy) sumColor sumWeight,
       acc.2 ++ [Event.sharedWriteRe (ox, oy) sumColor sumWeight])
    else
      (sigma, acc.2)
  (next.1, next.2 ++ [Event.barrier])

/-- The part of FFX_DNSR_Reflections_Reproject that runs after the call to
FFX_DNSR_Reflections_InitializeGroupSharedMemory and the first barrier,
given the groupshared tile state left by initialization.  Produces the
trace of this thread: texture stores of the glossy branch, the shared
write and barrier of the downsample preparation, the downsample loop, and
the final average-radiance store of thread (0, 0). -/
def reprojectAfterInit (env : Env) (dispatch_thread_id group_thread_id screen_size : ℤ × ℤ)
    (max_samples : ℚ) (sigma1 : SharedRe) : List Event :=
  let group_thread_id_c := group_thread_id + (4, 4)
  let roughness := env.LoadRoughness dispatch_thread_id
  let _normal := env.LoadWorldSpaceNormal dispatch_thread_id
  let radiance0 := GetContactHardenedRadiance env dispatch_thread_id
  let ray_length := env.LoadRayLength dispatch_thread_id
  let glossy : List Event × Vec4 :=
    if env.IsGlossyReflection roughness then
      let pick := FFX_DNSR_Reflections_PickReprojection env sigma1 dispatch_thread_id
        group_thread_id_c screen_size roughness ray_length
      let disocclusion_factor := pick.1
      let reprojection_uv := pick.2.1
      let reprojection := pick.2.2
      let prev_variance := env.SampleVarianceHistory reprojection_uv
      let num_samples0 := env.SampleNumSamplesHistory reprojection_uv * disocclusion_factor
      let s_max_samples := max 8 (max_samples * env.SamplesForRoughness roughness)
      let num_samples1 := min s_max_samples (num_samples0 + env.SampleCountIntersection)
      let num_samples := max 1 num_samples1
      let new_variance := env.ComputeTemporalVariance radiance0.xyz reprojection.xyz
      if disocclusion_factor < env.DISOCCLUSION_THRESHOLD then
        ([Event.store .RadianceReprojected dispatch_thread_id (.vector ⟨0, 0, 0, 0⟩),
          Event.store .Variance dispatch_thread_id (.scalar 1),
          Event.store .NumSamples dispatch_thread_id (.scalar 1)], radiance0)
      else
        let variance_mix := lerpQ new_variance prev_variance (1 / num_samples)
        ([Event.store .RadianceReprojected dispatch_thread_id (.vector reprojection),
          Event.store .Variance dispatch_thread_id (.scalar variance_mix),
          Event.store .NumSamples dispatch_thread_id (.scalar num_samples)],
         radiance0.withXyz (lerp3 radiance0.xyz reprojection.xyz (3/10)))
    else
      ([], radiance0)
  let weight0 := FFX_DNSR_Reflections_GetLuminanceWeight env glossy.2.xyz
  let radiance1 := glossy.2.withXyz (Vec3.scale weight0 glossy.2.xyz)
  let zeroed : Vec4 × ℚ :=
    if (dispatch_thread_id.1 ≥ screen_size.1 ∨ dispatch_thread_id.2 ≥ screen_size.2) ∨ weight0 > 1000 then
      (⟨0, 0, 0, 0⟩, 0)
    else
      (radiance1, weight0)
  let group_thread_id_b := group_thread_id_c - (4, 4)
  let sigma2 := FFX_DNSR_Reflections_StoreInGroupSharedMemory_Re sigma1 group_thread_id_b zeroed.1 zeroed.2
  let afterStore : List Event :=
    glossy.1 ++ [Event.sharedWriteRe group_thread_id_b zeroed.1 zeroed.2, Event.barrier]
  let looped := ([2, 4, 8] : List ℤ).foldl (reprojectDownsampleStep group_thread_id_b) (sigma2, afterStore)
  if group_thread_id_b = (0, 0) then
    let sumColor := FFX_DNSR_Reflections_LoadFromGroupSharedMemoryRaw looped.1 (0, 0)
    let sumWeight := looped.1.s1 (0, 0)
    let weight_acc := max sumWeight (1/1000)
    let radiance_avg0 := sumColor.divScalar weight_acc
    let radiance_avg : Vec4 := ⟨radiance_avg0.x, radiance_avg0.y, radiance_avg0.z, saturate radiance_avg0.w⟩
    looped.2 ++ [Event.store .AverageRadiance (Int.tdiv dispatch_thread_id.1 8, Int.tdiv dispatch_thread_id.2 8)
      (.vector radiance_avg)]
  else
    looped.2

/-- FFX_DNSR_Reflections_Reproject: the full per-thread trace, beginning
with the four shared-memory writes of initialization and the first group
barrier. -/
def FFX_DNSR_Reflections_Reproject (env : Env) (dispatch_thread_id group_thread_id screen_size : ℤ × ℤ)
    (_temporal_stability_factor max_samples : ℚ) (sigma0 : SharedRe) : List Event :=
  let init := FFX_DNSR_Reflections_InitializeGroupSharedMemory_Re env dispatch_thread_id group_thread_id
    screen_size sigma0
  init.2 ++ [Event.barrier] ++
    reprojectAfterInit env dispatch_thread_id group_thread_id screen_size max_samples init.1

/-- The FFX_DNSR_Reflections_NeighborhoodSample struct of the prefilter
kernel: radiance, variance, normal and depth. -/
structure NeighborhoodSamplePre where
  radiance : Vec4
  variance : ℚ
  normal : Vec3
  depth : ℚ
deriving DecidableEq, Repr

/-- FFX_DNSR_Reflections_LoadFromGroupSharedMemory (prefilter kernel):
unpacks the radiance tile, the normal+variance tile and the depth tile at
the given index. -/
def FFX_DNSR_Reflections_LoadFromGroupSharedMemory_Pre (sigma : SharedPre) (idx : ℤ × ℤ) :
    NeighborhoodSamplePre :=
  let unpacked_radiance := sigma.s0 idx
  let unpacked_normal_variance := sigma.s1 idx
  { radiance := unpacked_radiance
    normal := unpacked_normal_variance.xyz
    variance := unpacked_normal_variance.w
    depth := sigma.sdepth idx }

/-- FFX_DNSR_Reflections_StoreInGroupSharedMemory (prefilter kernel):
packs radiance into tile 0, normal and variance into tile 1, and depth
into the depth tile at group_thread_id. -/
def FFX_DNSR_Reflections_StoreInGroupSharedMemory_Pre (sigma : SharedPre) (group_thread_id : ℤ × ℤ)
    (radiance : Vec4) (variance : ℚ) (normal : Vec3) (depth : ℚ) : SharedPre where
  s0 := fun p => if p = group_thread_id then radiance else sigma.s0 p
  s1 := fun p => if p = group_thread_id then ⟨normal.x, normal.y, normal.z, variance⟩ else sigma.s1 p
  sdepth := fun p => if p = group_thread_id then depth else sigma.sdepth p

/-- FFX_DNSR_Reflections_InitializeGroupSharedMemory (prefilter kernel):
loads the 16x16 neighborhood region into registers with 4 8x8 blocks, then
moves the registers to the three groupshared tiles. -/
def FFX_DNSR_Reflections_InitializeGroupSharedMemory_Pre (env : Env)
    (dispatch_thread_id group_thread_id : ℤ × ℤ) (screen_size : ℤ × ℤ)
    (sigma : SharedPre) : SharedPre × List Event :=
  let dtid := dispatch_thread_id - env.DISPATCH_OFFSET
  let loaded : ℕ → Vec4 × ℚ × Vec3 × ℚ := fun i => env.LoadNeighborhood (dtid + initOffsets i) screen_size
  ([0, 1, 2, 3] : List ℕ).foldl
    (fun acc j =>
      let l := loaded j
      (FFX_DNSR_Reflections_StoreInGroupSharedMemory_Pre acc.1 (group_thread_id + initOffsets j)
        l.1 l.2.1 l.2.2.1 l.2.2.2,
       acc.2 ++ [Event.sharedWritePre (group_thread_id + initOffsets j) l.1
        ⟨l.2.2.1.x, l.2.2.1.y, l.2.2.1.z, l.2.1⟩ l.2.2.2]))
    (sigma, [])

/-- FFX_DNSR_Reflections_GetEdgeStoppingNormalWeight. -/
def FFX_DNSR_Reflections_GetEdgeStoppingNormalWeight (env : Env) (normal_p normal_q : Vec3) : ℚ :=
  env.pow (max (dot3 normal_p normal_q) 0) env.PREFILTER_NORMAL_SIGMA

/-- FFX_DNSR_Reflections_GetEdgeStoppingDepthWeight. -/
def FFX_DNSR_Reflections_GetEdgeStoppingDepthWeight (env : Env) (center_depth neighbor_depth : ℚ) : ℚ :=
  env.exp (-|center_depth - neighbor_depth| * center_depth * env.PREFILTER_DEPTH_SIGMA)

/-- FFX_DNSR_Reflections_GetRadianceWeight: an exponential radiance
similarity weight clamped from below at 1.0e-2. -/
def FFX_DNSR_Reflections_GetRadianceWeight (env : Env) (center_radiance neighbor_radiance : Vec4)
    (variance : ℚ) : ℚ :=
  max (env.exp (-(env.RADIANCE_WEIGHT_BIAS + variance * env.RADIANCE_WEIGHT_VARIANCE_K)
        * env.length3 (Vec3.sub center_radiance.xyz neighbor_radiance.xyz)))
      (1/100)

/-- The 15 Halton(2,3) sample offsets of FFX_DNSR_Reflections_Resolve,
stretched to [-3, 3] and skipping the center. -/
def resolveSampleOffsets : List (ℤ × ℤ) :=
  [(0, 1), (-2, 1), (2, -3), (-3, 0), (1, 2), (-1, -2), (3, 0), (-3, 3),
   (0, -3), (-1, -1), (2, 1), (-2, -2), (1, 0), (0, 2), (3, -1)]

/-- The weight one loop iteration of FFX_DNSR_Reflections_Resolve gives a
neighbor: the product of the edge-stopping normal weight, the
edge-stopping depth weight, the radiance weight and the variance
weight. -/
def resolveNeighborWeight (env : Env) (avg_radiance : Vec4) (center : NeighborhoodSamplePre)
    (variance_weight : ℚ) (neighbor : NeighborhoodSamplePre) : ℚ :=
  1 * FFX_DNSR_Reflections_GetEdgeStoppingNormalWeight env center.normal neighbor.normal
    * FFX_DNSR_Reflections_GetEdgeStoppingDepthWeight env center.depth neighbor.depth
    * FFX_DNSR_Reflections_GetRadianceWeight env avg_radiance neighbor.radiance center.variance
    * variance_weight

/-- The accumulation loop of FFX_DNSR_Reflections_Resolve: starting from
the center contribution weighted by the firefly-suppressing initial
weight, folds the 15 Halton neighbors into (accumulated_weight,
accumulated_radiance, accumulated_variance). -/
def resolveAcc (env : Env) (sigma : SharedPre) (group_thread_id : ℤ × ℤ)
    (avg_radiance : Vec4) (center : NeighborhoodSamplePre) : ℚ × Vec4 × ℚ :=
  let accumulated_weight0 := FFX_DNSR_Reflections_GetRadianceWeight env avg_radiance center.radiance center.variance
  let variance_weight := max env.PREFILTER_VARIANCE_BIAS
    (1 - env.exp (-(center.variance * env.PREFILTER_VARIANCE_WEIGHT)))
  resolveSampleOffsets.foldl
    (fun (a : ℚ × Vec4 × ℚ) o =>
      let new_idx := group_thread_id + o
      let neighbor := FFX_DNSR_Reflections_LoadFromGroupSharedMemory_Pre sigma new_idx
      let weight := resolveNeighborWeight env avg_radiance center variance_weight neighbor
      (a.1 + weight, a.2.1 + Vec4.scale weight neighbor.radiance, a.2.2 + weight * weight * neighbor.variance))
    (accumulated_weight0, Vec4.scale accumulated_weight0 center.radiance,
     center.variance * accumulated_weight0 * accumulated_weight0)

/-- FFX_DNSR_Reflections_Resolve: the accumulated radiance divided by the
accumulated weight, and the accumulated variance divided by the squared
accumulated weight. -/
def FFX_DNSR_Reflections_Resolve (env : Env) (sigma : SharedPre) (group_thread_id : ℤ × ℤ)
    (avg_radiance : Vec4) (center : NeighborhoodSamplePre) : Vec4 × ℚ :=
  let acc := resolveAcc env sigma group_thread_id avg_radiance center
  (acc.2.1.divScalar acc.1, acc.2.2 / (acc.1 * acc.1))

/-- The part of FFX_DNSR_Reflections_Prefilter that runs after the call to
FFX_DNSR_Reflections_InitializeGroupSharedMemory and the barrier, given
the groupshared tile state left by initialization and the roughness read
before it. -/
def prefilterAfterInit (env : Env) (dispatch_thread_id group_thread_id screen_size : ℤ × ℤ)
    (center_roughness : ℚ) (sigma1 : SharedPre) : List Event :=
  let group_thread_id_c := group_thread_id + (4, 4)
  let center := FFX_DNSR_Reflections_LoadFromGroupSharedMemory_Pre sigma1 group_thread_id_c
  let needs_denoiser := center.variance > 0 ∧ env.IsGlossyReflection center_roughness = true ∧
    ¬env.IsMirrorReflection center_roughness = true
  let resolved : Vec4 × ℚ :=
    if needs_denoiser then
      let uv8 : ℚ × ℚ := (((dispatch_thread_id.1 : ℚ) + 1/2) / (env.RoundUp8 screen_size).1,
                          ((dispatch_thread_id.2 : ℚ) + 1/2) / (env.RoundUp8 screen_size).2)
      let avg_radiance := env.SampleAverageRadiance uv8
      FFX_DNSR_Reflections_Resolve env sigma1 group_thread_id_c avg_radiance center
    else
      (center.radiance, center.variance)
  [Event.store .PrefilteredReflections dispatch_thread_id (.vectorScalar resolved.1 resolved.2)]

/-- FFX_DNSR_Reflections_Prefilter: the full per-thread trace: the four
shared-memory writes of initialization, the group barrier, and the final
store of the resolved radiance and variance. -/
def FFX_DNSR_Reflections_Prefilter (env : Env) (dispatch_thread_id group_thread_id screen_size : ℤ × ℤ)
    (sigma0 : SharedPre) : List Event :=
  let center_roughness := env.LoadRoughness dispatch_thread_id
  let init := FFX_DNSR_Reflections_InitializeGroupSharedMemory_Pre env dispatch_thread_id group_thread_id
    screen_size sigma0
  init.2 ++ [Event.barrier] ++
    prefilterAfterInit env dispatch_thread_id group_thread_id screen_size center_roughness init.1

/-- A concrete environment for evaluating the kernels at specific inputs:
every texture read, every intrinsic and every constant is zero, except
that the disocclusion threshold is 9/10, the local neighborhood radius is
0 and every roughness counts as a glossy reflection. -/
def envGlossy : Env where
  exp := fun _ => 0
  pow := fun _ _ => 0
  length3 := fun _ => 0
  normalize3 := fun _ => ⟨0, 0, 0⟩
  LoadRadiance := fun _ => 0
  LoadRayLength := fun _ => 0
  LoadRoughness := fun _ => 0
  LoadDepth := fun _ => 0
  LoadWorldSpaceNormal := fun _ => ⟨0, 0, 0⟩
  LoadMotionVector := fun _ => (0, 0)
  LoadWorldSpaceNormalHistory := fun _ => ⟨0, 0, 0⟩
  LoadDepthHistory := fun _ => 0
  LoadNeighborhood := fun _ _ => (0, 0, ⟨0, 0, 0⟩, 0)
  SampleWorldSpaceNormalHistory := fun _ => ⟨0, 0, 0⟩
  SampleRadianceHistory := fun _ => 0
  SampleRoughnessHistory := fun _ => 0
  SampleDepthHistory := fun _ => 0
  SampleVarianceHistory := fun _ => 0
  SampleNumSamplesHistory := fun _ => 0
  SampleAverageRadiance := fun _ => 0
  GetLinearDepth := fun _ _ => 0
  IsGlossyReflection := fun _ => true
  IsMirrorReflection := fun _ => false
  ComputeTemporalVariance := fun _ _ => 0
  Luminance := fun _ => 0
  SamplesForRoughness := fun _ => 0
  RoundUp8 := fun _ => (0, 0)
  InvProjectPosition := fun _ => ⟨0, 0, 0⟩
  ProjectPosition := fun _ => ⟨0, 0, 0⟩
  MotionGet := fun _ => (0, 0)
  cameraPositionWs := ⟨0, 0, 0⟩
  Dimensions := (0, 0)
  InvDimensions := (0, 0)
  SampleCountIntersection := 0
  DISPATCH_OFFSET := (0, 0)
  DISOCCLUSION_THRESHOLD := 9/10
  DISOCCLUSION_NORMAL_WEIGHT := 0
  DISOCCLUSION_DEPTH_WEIGHT := 0
  REPROJECTION_NORMAL_SIMILARITY_THRESHOLD := 0
  AVG_RADIANCE_LUMINANCE_WEIGHT := 0
  LOCAL_NEIGHBORHOOD_RADIUS := 0
  LocalNeighborhoodKernelWeight := fun _ => 0
  PREFILTER_NORMAL_SIGMA := 0
  PREFILTER_DEPTH_SIGMA := 0
  RADIANCE_WEIGHT_BIAS := 0
  RADIANCE_WEIGHT_VARIANCE_K := 0
  PREFILTER_VARIANCE_BIAS := 0
  PREFILTER_VARIANCE_WEIGHT := 0

/-- The same environment with no roughness counting as glossy. -/
def envNonGlossy : Env := { envGlossy with IsGlossyReflection := fun _ => false }

/-- The same environment with positive exp, a zero pow and a zero
prefilter variance bias, so that the hypotheses of the accumulated-weight
bound hold. -/
def envResolve : Env := { envGlossy with exp := fun _ => 1 }

/-- Empty reproject groupshared tiles. -/
def sharedReZero : SharedRe := ⟨fun _ => 0, fun _ => 0⟩

/-- Empty prefilter groupshared tiles. -/
def sharedPreZero : SharedPre := ⟨fun _ => 0, fun _ => 0, fun _ => 0⟩

/-- Claim C4: for every index and every radiance, variance, normal and
depth value, storing through the prefilter packing
(FFX_DNSR_Reflections_StoreInGroupSharedMemory) and loading at the same
index (FFX_DNSR_Reflections_LoadFromGroupSharedMemory) returns exactly the
stored radiance, variance, normal and depth: the packing into the radiance
tile, the normal+variance tile and the depth tile is a lossless round
trip.  Stated for all indices, which covers in particular every in-range
index of the 16x16 tiles. -/
theorem claim_C4_prefilter_shared_roundtrip (sigma : SharedPre) (idx : ℤ × ℤ) (radiance : Vec4)
    (variance : ℚ) (normal : Vec3) (depth : ℚ) :
    FFX_DNSR_Reflections_LoadFromGroupSharedMemory_Pre
      (FFX_DNSR_Reflections_StoreInGroupSharedMemory_Pre sigma idx radiance variance normal depth) idx =
      ⟨radiance, variance, normal, depth⟩ := by
  simp [FFX_DNSR_Reflections_LoadFromGroupSharedMemory_Pre,
    FFX_DNSR_Reflections_StoreInGroupSharedMemory_Pre, Vec4.xyz]

/-- Claim C9: for every group thread id in [0,8) x [0,8), after the +4
centering the center index and all 15 Halton sample offsets of
FFX_DNSR_Reflections_Resolve (each component of which lies in [-3,3])
give shared-memory indices inside [1,14] x [1,14], strictly inside the
16x16 tiles. -/
theorem claim_C9_resolve_offsets_in_bounds :
    ∀ gx gy : Fin 8,
      (1 ≤ (gx : ℤ) + 4 ∧ (gx : ℤ) + 4 ≤ 14 ∧ 1 ≤ (gy : ℤ) + 4 ∧ (gy : ℤ) + 4 ≤ 14) ∧
      resolveSampleOffsets.all (fun o =>
        decide (-3 ≤ o.1 ∧ o.1 ≤ 3 ∧ -3 ≤ o.2 ∧ o.2 ≤ 3) &&
        decide (1 ≤ (gx : ℤ) + 4 + o.1 ∧ (gx : ℤ) + 4 + o.1 ≤ 14 ∧
                1 ≤ (gy : ℤ) + 4 + o.2 ∧ (gy : ℤ) + 4 + o.2 ≤ 14)) = true := by
  decide

/-- Claim C10: the disocclusion factor returned by
FFX_DNSR_Reflections_PickReprojection is never strictly between 0 and the
disocclusion threshold: it is either exactly 0 or at least the
threshold. -/
theorem pickClampFinal_low_or_high (env : Env) (s : ℚ × (ℚ × ℚ) × Vec4) :
    (pickClampFinal env s).1 = 0 ∨ env.DISOCCLUSION_THRESHOLD ≤ (pickClampFinal env s).1 := by
  unfold pickClampFinal
  by_cases h : s.1 < env.DISOCCLUSION_THRESHOLD
  · rw [if_pos h]; exact Or.inl rfl
  · rw [if_neg h]; exact Or.inr (le_of_not_lt h)

theorem pick_branch_low_or_high (env : Env) (d0 : ℚ) (ruv : ℚ × ℚ) (rp : Vec4)
    (s2 : ℚ × (ℚ × ℚ) × Vec4) :
    (if d0 > env.DISOCCLUSION_THRESHOLD then (d0, ruv, rp) else pickClampFinal env s2).1 = 0 ∨
    env.DISOCCLUSION_THRESHOLD ≤
      (if d0 > env.DISOCCLUSION_THRESHOLD then (d0, ruv, rp) else pickClampFinal env s2).1 := by
  by_cases h : d0 > env.DISOCCLUSION_THRESHOLD
  · rw [if_pos h]; exact Or.inr (le_of_lt h)
  · rw [if_neg h]; exact pickClampFinal_low_or_high env s2

theorem claim_C10_pick_reprojection_clamped (env : Env) (sigma : SharedRe)
    (dispatch_thread_id group_thread_id screen_size : ℤ × ℤ) (roughness ray_length : ℚ) :
    (FFX_DNSR_Reflections_PickReprojection env sigma dispatch_thread_id group_thread_id
        screen_size roughness ray_length).1 = 0 ∨
    env.DISOCCLUSION_THRESHOLD ≤
      (FFX_DNSR_Reflections_PickReprojection env sigma dispatch_thread_id group_thread_id
        screen_size roughness ray_length).1 := by
  unfold FFX_DNSR_Reflections_PickReprojection
  dsimp only
  exact pick_branch_low_or_high env _ _ _ _

theorem initOffsets_cover (p : ℤ × ℤ) (hx0 : 0 ≤ p.1) (hx1 : p.1 < 16)
    (hy0 : 0 ≤ p.2) (hy1 : p.2 < 16) :
    ∃! gj : (ℤ × ℤ) × Fin 4,
      (0 ≤ gj.1.1 ∧ gj.1.1 < 8 ∧ 0 ≤ gj.1.2 ∧ gj.1.2 < 8) ∧
      gj.1 + initOffsets (gj.2 : ℕ) = p := by
  by_cases hx : p.1 < 8 <;> by_cases hy : p.2 < 8
  · refine ⟨((p.1, p.2), 0), ⟨⟨hx0, hx, hy0, hy⟩, ?_⟩, ?_⟩
    · simp [initOffsets]
    · rintro ⟨⟨a, b⟩, j⟩ ⟨⟨ha0, ha8, hb0, hb8⟩, heq⟩
      fin_cases j <;> simp_all [initOffsets, Prod.ext_iff] <;> omega
  · refine ⟨((p.1, p.2 - 8), 2), ⟨⟨hx0, hx, by dsimp only; omega, by dsimp only; omega⟩, ?_⟩, ?_⟩
    · simp [initOffsets, Prod.ext_iff]
    · rintro ⟨⟨a, b⟩, j⟩ ⟨⟨ha0, ha8, hb0, hb8⟩, heq⟩
      fin_cases j <;> simp_all [initOffsets, Prod.ext_iff] <;> omega
  · refine ⟨((p.1 - 8, p.2), 1), ⟨⟨by dsimp only; omega, by dsimp only; omega, hy0, hy⟩, ?_⟩, ?_⟩
    · simp [initOffsets, Prod.ext_iff]
    · rintro ⟨⟨a, b⟩, j⟩ ⟨⟨ha0, ha8, hb0, hb8⟩, heq⟩
      fin_cases j <;> simp_all [initOffsets, Prod.ext_iff] <;> omega
  · refine ⟨((p.1 - 8, p.2 - 8), 3), ⟨⟨by dsimp only; omega, by dsimp only; omega, by dsimp only; omega, by dsimp only; omega⟩, ?_⟩, ?_⟩
    · simp [initOffsets, Prod.ext_iff]
    · rintro ⟨⟨a, b⟩, j⟩ ⟨⟨ha0, ha8, hb0, hb8⟩, heq⟩
      fin_cases j <;> simp_all [initOffsets, Prod.ext_iff] <;> omega

theorem initRe_read (env : Env) (dtid gtid ss : ℤ × ℤ) (sigma : SharedRe) (j : Fin 4) :
    ((FFX_DNSR_Reflections_InitializeGroupSharedMemory_Re env dtid gtid ss sigma).1).s0
        (gtid + initOffsets (j : ℕ)) =
      env.LoadRadiance (dtid - env.DISPATCH_OFFSET + initOffsets (j : ℕ)) := by
  fin_cases j <;>
    simp [FFX_DNSR_Reflections_InitializeGroupSharedMemory_Re,
      FFX_DNSR_Reflections_StoreInGroupSharedMemory_Re, initOffsets, Prod.ext_iff]

theorem initPre_read (env : Env) (dtid gtid ss : ℤ × ℤ) (sigma : SharedPre) (j : Fin 4) :
    FFX_DNSR_Reflections_LoadFromGroupSharedMemory_Pre
        ((FFX_DNSR_Reflections_InitializeGroupSharedMemory_Pre env dtid gtid ss sigma).1)
        (gtid + initOffsets (j : ℕ)) =
      { radiance := (env.LoadNeighborhood (dtid - env.DISPATCH_OFFSET + initOffsets (j : ℕ)) ss).1,
        variance := (env.LoadNeighborhood (dtid - env.DISPATCH_OFFSET + initOffsets (j : ℕ)) ss).2.1,
        normal := (env.LoadNeighborhood (dtid - env.DISPATCH_OFFSET + initOffsets (j : ℕ)) ss).2.2.1,
        depth := (env.LoadNeighborhood (dtid - env.DISPATCH_OFFSET + initOffsets (j : ℕ)) ss).2.2.2 } := by
  fin_cases j <;>
    simp [FFX_DNSR_Reflections_InitializeGroupSharedMemory_Pre,
      FFX_DNSR_Reflections_StoreInGroupSharedMemory_Pre,
      FFX_DNSR_Reflections_LoadFromGroupSharedMemory_Pre, Vec4.xyz, initOffsets, Prod.ext_iff]

/-- Claim C2: the four block offsets tile the 16x16 region exactly once
over the 8x8 thread group (every tile entry is written by exactly one
(group_thread_id, offset) pair), and for each such pair the tile entry at
group_thread_id + offset holds the value loaded for pixel
(dispatch_thread_id - DISPATCH_OFFSET) + offset: the radiance for the
reproject kernel, and the radiance, variance, normal and depth of the
loaded neighborhood for the prefilter kernel. -/
theorem claim_C2_init_tiles_once (env : Env) (dtid gtid ss : ℤ × ℤ)
    (sigmaR : SharedRe) (sigmaP : SharedPre) (j : Fin 4) :
    (∀ p : ℤ × ℤ, 0 ≤ p.1 → p.1 < 16 → 0 ≤ p.2 → p.2 < 16 →
      ∃! gj : (ℤ × ℤ) × Fin 4,
        (0 ≤ gj.1.1 ∧ gj.1.1 < 8 ∧ 0 ≤ gj.1.2 ∧ gj.1.2 < 8) ∧
        gj.1 + initOffsets (gj.2 : ℕ) = p) ∧
    ((FFX_DNSR_Reflections_InitializeGroupSharedMemory_Re env dtid gtid ss sigmaR).1).s0
        (gtid + initOffsets (j : ℕ)) =
      env.LoadRadiance (dtid - env.DISPATCH_OFFSET + initOffsets (j : ℕ)) ∧
    FFX_DNSR_Reflections_LoadFromGroupSharedMemory_Pre
        ((FFX_DNSR_Reflections_InitializeGroupSharedMemory_Pre env dtid gtid ss sigmaP).1)
        (gtid + initOffsets (j : ℕ)) =
      { radiance := (env.LoadNeighborhood (dtid - env.DISPATCH_OFFSET + initOffsets (j : ℕ)) ss).1,
        variance := (env.LoadNeighborhood (dtid - env.DISPATCH_OFFSET + initOffsets (j : ℕ)) ss).2.1,
        normal := (env.LoadNeighborhood (dtid - env.DISPATCH_OFFSET + initOffsets (j : ℕ)) ss).2.2.1,
        depth := (env.LoadNeighborhood (dtid - env.DISPATCH_OFFSET + initOffsets (j : ℕ)) ss).2.2.2 } :=
  ⟨fun p a b c d => initOffsets_cover p a b c d,
   initRe_read env dtid gtid ss sigmaR j,
   initPre_read env dtid gtid ss sigmaP j⟩

theorem estimate_acc_eq (env : Env) (sigma : SharedRe) (gtid : ℤ × ℤ) :
    ∀ (l : List (ℤ × ℤ)) (a : ℚ) (b c : Vec4),
      l.foldl
        (fun (a : ℚ × Vec4 × Vec4) ij =>
          let radiance := (FFX_DNSR_Reflections_LoadFromGroupSharedMemory_Re sigma (gtid + ij)).radiance
          let weight := env.LocalNeighborhoodKernelWeight ij.1 * env.LocalNeighborhoodKernelWeight ij.2
          (a.1 + weight, a.2.1 + Vec4.scale weight radiance, a.2.2 + Vec4.scale weight (radiance.mul radiance)))
        (a, b, c) =
      (a + (l.map (fun ij => env.LocalNeighborhoodKernelWeight ij.1 * env.LocalNeighborhoodKernelWeight ij.2)).sum,
       b + (l.map (fun ij => Vec4.scale
          (env.LocalNeighborhoodKernelWeight ij.1 * env.LocalNeighborhoodKernelWeight ij.2)
          (sigma.s0 (gtid + ij)))).sum,
       c + (l.map (fun ij => Vec4.scale
          (env.LocalNeighborhoodKernelWeight ij.1 * env.LocalNeighborhoodKernelWeight ij.2)
          (Vec4.mul (sigma.s0 (gtid + ij)) (sigma.s0 (gtid + ij))))).sum) := by
  intro l
  induction l with
  | nil => intro a b c; simp
  | cons x xs ih =>
    intro a b c
    rw [List.foldl_cons]
    refine (ih (a + env.LocalNeighborhoodKernelWeight x.1 * env.LocalNeighborhoodKernelWeight x.2)
      (b + Vec4.scale (env.LocalNeighborhoodKernelWeight x.1 * env.LocalNeighborhoodKernelWeight x.2)
        (sigma.s0 (gtid + x)))
      (c + Vec4.scale (env.LocalNeighborhoodKernelWeight x.1 * env.LocalNeighborhoodKernelWeight x.2)
        (Vec4.mul (sigma.s0 (gtid + x)) (sigma.s0 (gtid + x))))).trans ?_
    simp only [List.map_cons, List.sum_cons]
    refine Prod.ext ?_ (Prod.ext ?_ ?_) <;> dsimp <;> rw [add_assoc]

theorem neighborhoodOffsets_length (R : ℕ) :
    (neighborhoodOffsets R).length = (2 * R + 1) * (2 * R + 1) := by
  unfold neighborhoodOffsets
  rw [List.length_flatMap]
  have h : (List.length ∘ fun (j : ℕ) => (List.range (2 * R + 1)).map
      (fun (i : ℕ) => ((i : ℤ) - (R : ℤ), (j : ℤ) - (R : ℤ)))) = fun _ : ℕ => 2 * R + 1 := by
    funext j
    simp
  rw [h, List.map_const', List.sum_replicate, smul_eq_mul, List.length_range]

theorem estimate_closed_form (env : Env) (sigma : SharedRe) (gtid : ℤ × ℤ) :
    FFX_DNSR_Reflections_EstimateLocalNeighborhoodInGroup env sigma gtid =
      { mean := Vec4.divScalar
          (((neighborhoodOffsets env.LOCAL_NEIGHBORHOOD_RADIUS).map (fun ij => Vec4.scale
              (env.LocalNeighborhoodKernelWeight ij.1 * env.LocalNeighborhoodKernelWeight ij.2)
              (sigma.s0 (gtid + ij)))).sum)
          (((neighborhoodOffsets env.LOCAL_NEIGHBORHOOD_RADIUS).map (fun ij =>
              env.LocalNeighborhoodKernelWeight ij.1 * env.LocalNeighborhoodKernelWeight ij.2)).sum),
        variance := Vec4.abs4 (Vec4.sub
          (Vec4.divScalar
            (((neighborhoodOffsets env.LOCAL_NEIGHBORHOOD_RADIUS).map (fun ij => Vec4.scale
                (env.LocalNeighborhoodKernelWeight ij.1 * env.LocalNeighborhoodKernelWeight ij.2)
                (Vec4.mul (sigma.s0 (gtid + ij)) (sigma.s0 (gtid + ij))))).sum)
            (((neighborhoodOffsets env.LOCAL_NEIGHBORHOOD_RADIUS).map (fun ij =>
                env.LocalNeighborhoodKernelWeight ij.1 * env.LocalNeighborhoodKernelWeight ij.2)).sum))
          (Vec4.mul
            (Vec4.divScalar
              (((neighborhoodOffsets env.LOCAL_NEIGHBORHOOD_RADIUS).map (fun ij => Vec4.scale
                  (env.LocalNeighborhoodKernelWeight ij.1 * env.LocalNeighborhoodKernelWeight ij.2)
                  (sigma.s0 (gtid + ij)))).sum)
              (((neighborhoodOffsets env.LOCAL_NEIGHBORHOOD_RADIUS).map (fun ij =>
                  env.LocalNeighborhoodKernelWeight ij.1 * env.LocalNeighborhoodKernelWeight ij.2)).sum))
            (Vec4.divScalar
              (((neighborhoodOffsets env.LOCAL_NEIGHBORHOOD_RADIUS).map (fun ij => Vec4.scale
                  (env.LocalNeighborhoodKernelWeight ij.1 * env.LocalNeighborhoodKernelWeight ij.2)
                  (sigma.s0 (gtid + ij)))).sum)
              (((neighborhoodOffsets env.LOCAL_NEIGHBORHOOD_RADIUS).map (fun ij =>
                  env.LocalNeighborhoodKernelWeight ij.1 * env.LocalNeighborhoodKernelWeight ij.2)).sum)))) } := by
  unfold FFX_DNSR_Reflections_EstimateLocalNeighborhoodInGroup
  rw [estimate_acc_eq env sigma gtid (neighborhoodOffsets env.LOCAL_NEIGHBORHOOD_RADIUS) 0 0 0]
  simp

/-- Claim C6: FFX_DNSR_Reflections_EstimateLocalNeighborhoodInGroup is a
pure aggregate of the groupshared radiance tile: over the
(2R+1) x (2R+1) neighborhood of group_thread_id its mean equals the
kernel-weighted sum of the radiance values normalized by the accumulated
kernel weight, its variance equals |E[r^2] - mean^2| under the same
weights, so every component of the variance is nonnegative.  The function
reads only the tile passed to it and returns a value, modifying no shared
or external state (its Lean type has no state output). -/
theorem claim_C6_estimate_local_neighborhood (env : Env) (sigma : SharedRe) (gtid : ℤ × ℤ) :
    (neighborhoodOffsets env.LOCAL_NEIGHBORHOOD_RADIUS).length =
      (2 * env.LOCAL_NEIGHBORHOOD_RADIUS + 1) * (2 * env.LOCAL_NEIGHBORHOOD_RADIUS + 1) ∧
    (FFX_DNSR_Reflections_EstimateLocalNeighborhoodInGroup env sigma gtid).mean =
      Vec4.divScalar
        (((neighborhoodOffsets env.LOCAL_NEIGHBORHOOD_RADIUS).map (fun ij => Vec4.scale
            (env.LocalNeighborhoodKernelWeight ij.1 * env.LocalNeighborhoodKernelWeight ij.2)
            (sigma.s0 (gtid + ij)))).sum)
        (((neighborhoodOffsets env.LOCAL_NEIGHBORHOOD_RADIUS).map (fun ij =>
            env.LocalNeighborhoodKernelWeight ij.1 * env.LocalNeighborhoodKernelWeight ij.2)).sum) ∧
    (FFX_DNSR_Reflections_EstimateLocalNeighborhoodInGroup env sigma gtid).variance =
      Vec4.abs4 (Vec4.sub
        (Vec4.divScalar
          (((neighborhoodOffsets env.LOCAL_NEIGHBORHOOD_RADIUS).map (fun ij => Vec4.scale
              (env.LocalNeighborhoodKernelWeight ij.1 * env.LocalNeighborhoodKernelWeight ij.2)
              (Vec4.mul (sigma.s0 (gtid + ij)) (sigma.s0 (gtid + ij))))).sum)
          (((neighborhoodOffsets env.LOCAL_NEIGHBORHOOD_RADIUS).map (fun ij =>
              env.LocalNeighborhoodKernelWeight ij.1 * env.LocalNeighborhoodKernelWeight ij.2)).sum))
        (Vec4.mul (FFX_DNSR_Reflections_EstimateLocalNeighborhoodInGroup env sigma gtid).mean
          (FFX_DNSR_Reflections_EstimateLocalNeighborhoodInGroup env sigma gtid).mean)) ∧
    0 ≤ (FFX_DNSR_Reflections_EstimateLocalNeighborhoodInGroup env sigma gtid).variance.x ∧
    0 ≤ (FFX_DNSR_Reflections_EstimateLocalNeighborhoodInGroup env sigma gtid).variance.y ∧
    0 ≤ (FFX_DNSR_Reflections_EstimateLocalNeighborhoodInGroup env sigma gtid).variance.z ∧
    0 ≤ (FFX_DNSR_Reflections_EstimateLocalNeighborhoodInGroup env sigma gtid).variance.w := by
  refine ⟨neighborhoodOffsets_length _, ?_, ?_, ?_, ?_, ?_, ?_⟩ <;>
    rw [estimate_closed_form] <;> simp [Vec4.abs4, abs_nonneg]

theorem resolveAcc_fst_le (env : Env) (sigma : SharedPre) (gtid : ℤ × ℤ) (avg : Vec4)
    (center : NeighborhoodSamplePre) (vw : ℚ) :
    ∀ (l : List (ℤ × ℤ)) (a : ℚ × Vec4 × ℚ),
      (∀ o ∈ l, 0 ≤ resolveNeighborWeight env avg center vw
        (FFX_DNSR_Reflections_LoadFromGroupSharedMemory_Pre sigma (gtid + o))) →
      a.1 ≤ (l.foldl
        (fun (a : ℚ × Vec4 × ℚ) o =>
          let new_idx := gtid + o
          let neighbor := FFX_DNSR_Reflections_LoadFromGroupSharedMemory_Pre sigma new_idx
          let weight := resolveNeighborWeight env avg center vw neighbor
          (a.1 + weight, a.2.1 + Vec4.scale weight neighbor.radiance,
           a.2.2 + weight * weight * neighbor.variance))
        a).1 := by
  intro l
  induction l with
  | nil => intro a _; exact le_refl a.1
  | cons x xs ih =>
    intro a h
    rw [List.foldl_cons]
    refine le_trans ?_ (ih _ (fun o ho => h o (List.mem_cons_of_mem _ ho)))
    dsimp only
    exact le_add_of_nonneg_right (h x (List.mem_cons_self x xs))

/-- Claim C8: in the prefilter resolve loop the accumulated weight is
bounded below by 1.0e-2: the initial center weight from
FFX_DNSR_Reflections_GetRadianceWeight is clamped to at least 1.0e-2,
every neighbor weight added in the loop is nonnegative (under the facts
that exp is positive, pow of a nonnegative base is nonnegative, and the
prefilter variance bias is nonnegative), so the accumulated weight the
final divisions of FFX_DNSR_Reflections_Resolve divide by is at least
1.0e-2 and in particular never zero. -/
theorem claim_C8_resolve_weight_bounded (env : Env) (sigma : SharedPre) (gtid : ℤ × ℤ)
    (avg : Vec4) (center : NeighborhoodSamplePre)
    (hexp : ∀ q : ℚ, 0 < env.exp q)
    (hpow : ∀ x y : ℚ, 0 ≤ x → 0 ≤ env.pow x y)
    (hbias : 0 ≤ env.PREFILTER_VARIANCE_BIAS) :
    (∀ (c n : Vec4) (v : ℚ), 1/100 ≤ FFX_DNSR_Reflections_GetRadianceWeight env c n v) ∧
    (∀ (vw : ℚ) (nb : NeighborhoodSamplePre), 0 ≤ vw →
      0 ≤ resolveNeighborWeight env avg center vw nb) ∧
    1/100 ≤ (resolveAcc env sigma gtid avg center).1 ∧
    (resolveAcc env sigma gtid avg center).1 ≠ 0 := by
  have hrw : ∀ (c n : Vec4) (v : ℚ), 1/100 ≤ FFX_DNSR_Reflections_GetRadianceWeight env c n v :=
    fun c n v => le_max_right _ _
  have hnw : ∀ (vw : ℚ) (nb : NeighborhoodSamplePre), 0 ≤ vw →
      0 ≤ resolveNeighborWeight env avg center vw nb := by
    intro vw nb hvw
    unfold resolveNeighborWeight
    refine mul_nonneg (mul_nonneg (mul_nonneg (mul_nonneg zero_le_one ?_) ?_) ?_) hvw
    · exact hpow _ _ (le_max_right _ _)
    · exact le_of_lt (hexp _)
    · exact le_trans (by norm_num) (hrw avg nb.radiance center.variance)
  have hvw : 0 ≤ max env.PREFILTER_VARIANCE_BIAS
      (1 - env.exp (-(center.variance * env.PREFILTER_VARIANCE_WEIGHT))) :=
    le_trans hbias (le_max_left _ _)
  have hmain : 1/100 ≤ (resolveAcc env sigma gtid avg center).1 := by
    have key := resolveAcc_fst_le env sigma gtid avg center
      (max env.PREFILTER_VARIANCE_BIAS
        (1 - env.exp (-(center.variance * env.PREFILTER_VARIANCE_WEIGHT))))
      resolveSampleOffsets
      (FFX_DNSR_Reflections_GetRadianceWeight env avg center.radiance center.variance,
       Vec4.scale (FFX_DNSR_Reflections_GetRadianceWeight env avg center.radiance center.variance)
         center.radiance,
       center.variance * FFX_DNSR_Reflections_GetRadianceWeight env avg center.radiance center.variance
         * FFX_DNSR_Reflections_GetRadianceWeight env avg center.radiance center.variance)
      (fun o _ => hnw _ _ hvw)
    exact le_trans (hrw avg center.radiance center.variance) key
  exact ⟨hrw, hnw, hmain, (lt_of_lt_of_le (by norm_num) hmain).ne'⟩

/-- Witness for claim C8 at a concrete environment and input. -/
theorem claim_C8_witness :
    1/100 ≤ (resolveAcc envResolve sharedPreZero (0, 0) 0
      { radiance := 0, variance := 0, normal := ⟨0, 0, 0⟩, depth := 0 }).1 :=
  (claim_C8_resolve_weight_bounded envResolve sharedPreZero (0, 0) 0
    { radiance := 0, variance := 0, normal := ⟨0, 0, 0⟩, depth := 0 }
    (fun q => by norm_num [envResolve, envGlossy])
    (fun x y hx => by norm_num [envResolve, envGlossy])
    (by norm_num [envResolve, envGlossy])).2.2.1

theorem downsample_foldl_filter (gtid : ℤ × ℤ) (p : Event → Bool)
    (hw : ∀ i v w, p (.sharedWriteRe i v w) = false) (hb : p .barrier = false) :
    ∀ (l : List ℤ) (acc : SharedRe × List Event),
      ((l.foldl (reprojectDownsampleStep gtid) acc).2).filter p = acc.2.filter p := by
  intro l
  induction l with
  | nil => intro acc; rfl
  | cons x xs ih =>
    intro acc
    rw [List.foldl_cons, ih]
    unfold reprojectDownsampleStep
    dsimp only
    split
    · simp [List.filter_append, hw, hb]
    · simp [List.filter_append, hb]

theorem downsample_foldl_events_extend (gtid : ℤ × ℤ) :
    ∀ (l : List ℤ) (acc : SharedRe × List Event),
      ∃ t, ((l.foldl (reprojectDownsampleStep gtid) acc).2) = acc.2 ++ t := by
  intro l
  induction l with
  | nil => intro acc; exact ⟨[], (List.append_nil _).symm⟩
  | cons x xs ih =>
    intro acc
    obtain ⟨t, ht⟩ := ih (reprojectDownsampleStep gtid acc x)
    rw [List.foldl_cons, ht]
    unfold reprojectDownsampleStep
    dsimp only
    split
    · exact ⟨_, by rw [List.append_assoc, List.append_assoc]⟩
    · exact ⟨_, by rw [List.append_assoc]⟩

theorem initRe_events_filter (env : Env) (dtid gtid ss : ℤ × ℤ) (sigma : SharedRe)
    (p : Event → Bool) (hw : ∀ i v w, p (.sharedWriteRe i v w) = false) :
    ((FFX_DNSR_Reflections_InitializeGroupSharedMemory_Re env dtid gtid ss sigma).2).filter p = [] := by
  simp [FFX_DNSR_Reflections_InitializeGroupSharedMemory_Re, hw]

theorem initPre_events_filter (env : Env) (dtid gtid ss : ℤ × ℤ) (sigma : SharedPre)
    (p : Event → Bool) (hw : ∀ i v n d, p (.sharedWritePre i v n d) = false) :
    ((FFX_DNSR_Reflections_InitializeGroupSharedMemory_Pre env dtid gtid ss sigma).2).filter p = [] := by
  simp [FFX_DNSR_Reflections_InitializeGroupSharedMemory_Pre, hw]

theorem downsample_filter_historyStore (gtid : ℤ × ℤ) (l : List ℤ) (acc : SharedRe × List Event) :
    ((l.foldl (reprojectDownsampleStep gtid) acc).2).filter Event.isHistoryStore =
      acc.2.filter Event.isHistoryStore :=
  downsample_foldl_filter gtid Event.isHistoryStore (fun _ _ _ => rfl) rfl l acc

theorem downsample_filter_reprojectStoreAt (gtid c : ℤ × ℤ) (l : List ℤ)
    (acc : SharedRe × List Event) :
    ((l.foldl (reprojectDownsampleStep gtid) acc).2).filter (Event.isReprojectStoreAt c) =
      acc.2.filter (Event.isReprojectStoreAt c) :=
  downsample_foldl_filter gtid (Event.isReprojectStoreAt c) (fun _ _ _ => rfl) rfl l acc

theorem downsample_filter_storeTo (gtid : ℤ × ℤ) (t : Target) (c : ℤ × ℤ) (l : List ℤ)
    (acc : SharedRe × List Event) :
    ((l.foldl (reprojectDownsampleStep gtid) acc).2).filter (Event.isStoreTo t c) =
      acc.2.filter (Event.isStoreTo t c) :=
  downsample_foldl_filter gtid (Event.isStoreTo t c) (fun _ _ _ => rfl) rfl l acc

theorem initRe_filter_history (env : Env) (dtid gtid ss : ℤ × ℤ) (sigma : SharedRe) :
    ((FFX_DNSR_Reflections_InitializeGroupSharedMemory_Re env dtid gtid ss sigma).2).filter
      Event.isHistoryStore = [] :=
  initRe_events_filter env dtid gtid ss sigma Event.isHistoryStore (fun _ _ _ => rfl)

theorem initPre_filter_history (env : Env) (dtid gtid ss : ℤ × ℤ) (sigma : SharedPre) :
    ((FFX_DNSR_Reflections_InitializeGroupSharedMemory_Pre env dtid gtid ss sigma).2).filter
      Event.isHistoryStore = [] :=
  initPre_events_filter env dtid gtid ss sigma Event.isHistoryStore (fun _ _ _ _ => rfl)

theorem initRe_filter_reprojectStoreAt (env : Env) (dtid gtid ss c : ℤ × ℤ) (sigma : SharedRe) :
    ((FFX_DNSR_Reflections_InitializeGroupSharedMemory_Re env dtid gtid ss sigma).2).filter
      (Event.isReprojectStoreAt c) = [] :=
  initRe_events_filter env dtid gtid ss sigma (Event.isReprojectStoreAt c) (fun _ _ _ => rfl)

theorem initRe_filter_storeTo (env : Env) (dtid gtid ss : ℤ × ℤ) (t : Target) (c : ℤ × ℤ)
    (sigma : SharedRe) :
    ((FFX_DNSR_Reflections_InitializeGroupSharedMemory_Re env dtid gtid ss sigma).2).filter
      (Event.isStoreTo t c) = [] :=
  initRe_events_filter env dtid gtid ss sigma (Event.isStoreTo t c) (fun _ _ _ => rfl)

theorem reprojectAfterInit_filter_history (env : Env) (dtid gtid ss : ℤ × ℤ) (ms : ℚ)
    (sigma1 : SharedRe) :
    (reprojectAfterInit env dtid gtid ss ms sigma1).filter Event.isHistoryStore = [] := by
  unfold reprojectAfterInit
  dsimp only
  split_ifs <;>
    first
      | (rw [List.filter_append, downsample_filter_historyStore]
         simp [Event.isHistoryStore, Target.isHistory])
      | (rw [downsample_filter_historyStore]
         simp [Event.isHistoryStore, Target.isHistory])

theorem prefilterAfterInit_filter_history (env : Env) (dtid gtid ss : ℤ × ℤ) (cr : ℚ)
    (sigma1 : SharedPre) :
    (prefilterAfterInit env dtid gtid ss cr sigma1).filter Event.isHistoryStore = [] := by
  unfold prefilterAfterInit
  dsimp only
  simp [Event.isHistoryStore, Target.isHistory]

/-- Claim C5: both kernels treat the per-pixel history textures as
read-only.  In the embedding every history access is a Sample or Load
field of the environment (a pure read), and the theorem shows that the
trace of either kernel contains no store event naming a history texture:
every store goes to a current-frame output (reprojected radiance,
variance, num-samples, average radiance, prefiltered reflections). -/
theorem claim_C5_history_read_only (env : Env) (dtid gtid ss : ℤ × ℤ) (ts ms : ℚ)
    (sigma0 : SharedRe) (sigmaP : SharedPre) :
    (FFX_DNSR_Reflections_Reproject env dtid gtid ss ts ms sigma0).filter Event.isHistoryStore = [] ∧
    (FFX_DNSR_Reflections_Prefilter env dtid gtid ss sigmaP).filter Event.isHistoryStore = [] := by
  constructor
  · unfold FFX_DNSR_Reflections_Reproject
    dsimp only
    rw [List.filter_append, List.filter_append, initRe_filter_history,
      reprojectAfterInit_filter_history]
    rfl
  · unfold FFX_DNSR_Reflections_Prefilter
    dsimp only
    rw [List.filter_append, List.filter_append, initPre_filter_history,
      prefilterAfterInit_filter_history]
    rfl

theorem countP_foldl_downsample_ge (gtid : ℤ × ℤ) (l : List ℤ) (acc : SharedRe × List Event)
    (p : Event → Bool) :
    acc.2.countP p ≤ ((l.foldl (reprojectDownsampleStep gtid) acc).2).countP p := by
  obtain ⟨t, ht⟩ := downsample_foldl_events_extend gtid l acc
  rw [ht, List.countP_append]
  exact Nat.le_add_right _ _

theorem downsample_countP_sharedWrite_pos (gtid : ℤ × ℤ) (l : List ℤ) (sigma : SharedRe)
    (evs : List Event) (i : ℤ × ℤ) (v : Vec4) (w : ℚ) :
    0 < ((l.foldl (reprojectDownsampleStep gtid)
        (sigma, evs ++ [Event.sharedWriteRe i v w, Event.barrier])).2).countP
      Event.isSharedWrite := by
  refine lt_of_lt_of_le ?_ (countP_foldl_downsample_ge gtid l _ Event.isSharedWrite)
  dsimp only
  rw [List.countP_append]
  simp [Event.isSharedWrite, List.countP_cons]

theorem reprojectAfterInit_has_shared_write (env : Env) (dtid gtid ss : ℤ × ℤ) (ms : ℚ)
    (sigma1 : SharedRe) :
    (reprojectAfterInit env dtid gtid ss ms sigma1).countP Event.isSharedWrite ≠ 0 := by
  unfold reprojectAfterInit
  dsimp only
  split_ifs <;>
    refine Nat.pos_iff_ne_zero.mp ?_ <;>
    first
      | (rw [List.countP_append]
         exact Nat.lt_of_lt_of_le (downsample_countP_sharedWrite_pos _ _ _ _ _ _ _)
           (Nat.le_add_right _ _))
      | exact downsample_countP_sharedWrite_pos _ _ _ _ _ _ _

/-- Counterexample to claim C3 as stated: in the reproject kernel at a
concrete environment and input, the operations after
FFX_DNSR_Reflections_InitializeGroupSharedMemory and the first barrier do
write to the shared tiles again (the 8x8 -> 1 average-radiance downsample
reuses them). -/
theorem claim_C3_counterexample :
    (reprojectAfterInit envGlossy (0, 0) (0, 0) (8, 8) 0 sharedReZero).filter
      Event.isSharedWrite ≠ [] := by
  intro h
  have hc := reprojectAfterInit_has_shared_write envGlossy (0, 0) (0, 0) (8, 8) 0 sharedReZero
  rw [List.countP_eq_length_filter, h] at hc
  exact hc rfl

/-- Claim C3 (amended): after FFX_DNSR_Reflections_InitializeGroupSharedMemory
has run, the prefilter kernel never writes to the shared 16x16 tiles again
before the dispatch completes, but the reproject kernel does write to the
shared tiles again: it reuses them for the 8x8 -> 1 average-radiance
downsample (the unconditional store of the weighted radiance and the
stores of the reduction loop). -/
theorem claim_C3_amended_shared_writes (env : Env) (dtid gtid ss : ℤ × ℤ) (ms cr : ℚ)
    (sigmaR : SharedRe) (sigmaP : SharedPre) :
    (prefilterAfterInit env dtid gtid ss cr sigmaP).filter Event.isSharedWrite = [] ∧
    (reprojectAfterInit env dtid gtid ss ms sigmaR).countP Event.isSharedWrite ≠ 0 := by
  constructor
  · unfold prefilterAfterInit
    dsimp only
    simp [Event.isSharedWrite]
  · exact reprojectAfterInit_has_shared_write env dtid gtid ss ms sigmaR

theorem initPre_filter_storeTo (env : Env) (dtid gtid ss : ℤ × ℤ) (t : Target) (c : ℤ × ℤ)
    (sigma : SharedPre) :
    ((FFX_DNSR_Reflections_InitializeGroupSharedMemory_Pre env dtid gtid ss sigma).2).filter
      (Event.isStoreTo t c) = [] :=
  initPre_events_filter env dtid gtid ss sigma (Event.isStoreTo t c) (fun _ _ _ _ => rfl)

theorem downsample_countP_storeTo (gtid : ℤ × ℤ) (t : Target) (c : ℤ × ℤ) (l : List ℤ)
    (acc : SharedRe × List Event) :
    ((l.foldl (reprojectDownsampleStep gtid) acc).2).countP (Event.isStoreTo t c) =
      acc.2.countP (Event.isStoreTo t c) := by
  rw [List.countP_eq_length_filter, List.countP_eq_length_filter, downsample_filter_storeTo]

theorem prefilter_countP_prefiltered (env : Env) (dtid gtid ss : ℤ × ℤ) (sigmaP : SharedPre) :
    (FFX_DNSR_Reflections_Prefilter env dtid gtid ss sigmaP).countP
      (Event.isStoreTo .PrefilteredReflections dtid) = 1 := by
  unfold FFX_DNSR_Reflections_Prefilter prefilterAfterInit
  dsimp only
  rw [List.countP_append, List.countP_append, List.countP_eq_length_filter,
    initPre_filter_storeTo]
  simp [Event.isStoreTo, List.countP_cons]

theorem reproject_glossy_countP_storeTo (env : Env) (dtid gtid ss : ℤ × ℤ) (ts ms : ℚ)
    (sigma0 : SharedRe) (h : env.IsGlossyReflection (env.LoadRoughness dtid) = true)
    (t : Target) (ht : t = Target.RadianceReprojected ∨ t = Target.Variance ∨ t = Target.NumSamples) :
    (FFX_DNSR_Reflections_Reproject env dtid gtid ss ts ms sigma0).countP
      (Event.isStoreTo t dtid) = 1 := by
  unfold FFX_DNSR_Reflections_Reproject
  dsimp only
  rw [List.countP_append, List.countP_append, List.countP_eq_length_filter,
    initRe_filter_storeTo]
  unfold reprojectAfterInit
  dsimp only
  rw [h]
  rcases ht with rfl | rfl | rfl <;>
    split_ifs <;>
    first
      | (exact absurd rfl (by assumption))
      | (rw [List.countP_append, downsample_countP_storeTo]
         simp [Event.isStoreTo, List.countP_cons, List.countP_append])
      | (rw [downsample_countP_storeTo]
         simp [Event.isStoreTo, List.countP_cons, List.countP_append])

theorem reproject_nonglossy_no_reproject_store (env : Env) (dtid gtid ss : ℤ × ℤ) (ts ms : ℚ)
    (sigma0 : SharedRe) (h : env.IsGlossyReflection (env.LoadRoughness dtid) = false) :
    (FFX_DNSR_Reflections_Reproject env dtid gtid ss ts ms sigma0).countP
      (Event.isReprojectStoreAt dtid) = 0 := by
  unfold FFX_DNSR_Reflections_Reproject
  dsimp only
  rw [List.countP_append, List.countP_append, List.countP_eq_length_filter,
    initRe_filter_reprojectStoreAt]
  unfold reprojectAfterInit
  dsimp only
  rw [h]
  have hcount : ∀ (g : ℤ × ℤ) (l : List ℤ) (acc : SharedRe × List Event),
      ((l.foldl (reprojectDownsampleStep g) acc).2).countP (Event.isReprojectStoreAt dtid) =
        acc.2.countP (Event.isReprojectStoreAt dtid) := by
    intro g l acc
    rw [List.countP_eq_length_filter, List.countP_eq_length_filter,
      downsample_filter_reprojectStoreAt]
  split_ifs <;>
    first
      | (exact (by assumption : False).elim)
      | (exact Bool.noConfusion (by assumption : false = true))
      | (rw [List.countP_append, hcount]
         simp [Event.isReprojectStoreAt, List.countP_cons, List.countP_append])
      | (rw [hcount]
         simp [Event.isReprojectStoreAt, List.countP_cons, List.countP_append])

/-- Counterexample to claim C7 as stated: at a concrete non-glossy pixel,
FFX_DNSR_Reflections_Reproject stores neither a reprojected radiance nor a
variance nor a sample count for its pixel. -/
theorem claim_C7_counterexample :
    (FFX_DNSR_Reflections_Reproject envNonGlossy (0, 0) (1, 1) (8, 8) 0 0 sharedReZero).countP
      (Event.isReprojectStoreAt (0, 0)) = 0 :=
  reproject_nonglossy_no_reproject_store envNonGlossy (0, 0) (1, 1) (8, 8) 0 0 sharedReZero rfl

/-- Claim C7 (amended): FFX_DNSR_Reflections_Prefilter stores a resolved
radiance and variance for its pixel on every invocation, and
FFX_DNSR_Reflections_Reproject stores a reprojected radiance, a variance
and a sample count for its pixel exactly once whenever the pixel passes
the glossy-reflection test (on non-glossy pixels it stores none of
them). -/
theorem claim_C7_amended_kernel_outputs (env : Env) (dtid gtid ss : ℤ × ℤ) (ts ms : ℚ)
    (sigma0 : SharedRe) (sigmaP : SharedPre) :
    (FFX_DNSR_Reflections_Prefilter env dtid gtid ss sigmaP).countP
      (Event.isStoreTo .PrefilteredReflections dtid) = 1 ∧
    (env.IsGlossyReflection (env.LoadRoughness dtid) = true →
      (FFX_DNSR_Reflections_Reproject env dtid gtid ss ts ms sigma0).countP
        (Event.isStoreTo .RadianceReprojected dtid) = 1 ∧
      (FFX_DNSR_Reflections_Reproject env dtid gtid ss ts ms sigma0).countP
        (Event.isStoreTo .Variance dtid) = 1 ∧
      (FFX_DNSR_Reflections_Reproject env dtid gtid ss ts ms sigma0).countP
        (Event.isStoreTo .NumSamples dtid) = 1) ∧
    (env.IsGlossyReflection (env.LoadRoughness dtid) = false →
      (FFX_DNSR_Reflections_Reproject env dtid gtid ss ts ms sigma0).countP
        (Event.isReprojectStoreAt dtid) = 0) :=
  ⟨prefilter_countP_prefiltered env dtid gtid ss sigmaP,
   fun h => ⟨reproject_glossy_countP_storeTo env dtid gtid ss ts ms sigma0 h _ (Or.inl rfl),
     reproject_glossy_countP_storeTo env dtid gtid ss ts ms sigma0 h _ (Or.inr (Or.inl rfl)),
     reproject_glossy_countP_storeTo env dtid gtid ss ts ms sigma0 h _ (Or.inr (Or.inr rfl))⟩,
   fun h => reproject_nonglossy_no_reproject_store env dtid gtid ss ts ms sigma0 h⟩

theorem pick_shared_irrelevant (env : Env) (s s2 : SharedRe) (a b c : ℤ × ℤ) (r rl : ℚ) :
    FFX_DNSR_Reflections_PickReprojection env s a b c r rl =
      FFX_DNSR_Reflections_PickReprojection env s2 a b c r rl := rfl

/-- Claim C1: when the pixel passes the glossy-reflection test and the
disocclusion factor returned by FFX_DNSR_Reflections_PickReprojection
(after all fallback searches) is still below the disocclusion threshold,
FFX_DNSR_Reflections_Reproject discards the history for that pixel: the
only stores of reprojected radiance, variance and sample count it performs
at the pixel are a zero radiance, a variance of 1.0 and a sample count of
1.0. -/
theorem claim_C1_discard_invalid_history (env : Env) (dtid gtid ss : ℤ × ℤ) (ts ms : ℚ)
    (sigma0 : SharedRe)
    (hglossy : env.IsGlossyReflection (env.LoadRoughness dtid) = true)
    (hdis : (FFX_DNSR_Reflections_PickReprojection env
        (FFX_DNSR_Reflections_InitializeGroupSharedMemory_Re env dtid gtid ss sigma0).1
        dtid (gtid + (4, 4)) ss (env.LoadRoughness dtid) (env.LoadRayLength dtid)).1 <
      env.DISOCCLUSION_THRESHOLD) :
    (FFX_DNSR_Reflections_Reproject env dtid gtid ss ts ms sigma0).filter
      (Event.isReprojectStoreAt dtid) =
      [Event.store .RadianceReprojected dtid (.vector ⟨0, 0, 0, 0⟩),
       Event.store .Variance dtid (.scalar 1),
       Event.store .NumSamples dtid (.scalar 1)] := by
  unfold FFX_DNSR_Reflections_Reproject
  dsimp only
  rw [List.filter_append, List.filter_append, initRe_filter_reprojectStoreAt]
  unfold reprojectAfterInit
  dsimp only
  rw [hglossy]
  split_ifs <;>
    first
      | (exact (by assumption : False).elim)
      | (exact absurd rfl (by assumption))
      | (exact absurd hdis (by assumption))
      | (rw [List.filter_append, downsample_filter_reprojectStoreAt]
         simp [Event.isReprojectStoreAt])
      | (rw [downsample_filter_reprojectStoreAt]
         simp [Event.isReprojectStoreAt])

theorem claim_C1_witness_dis :
    (FFX_DNSR_Reflections_PickReprojection envGlossy
        (FFX_DNSR_Reflections_InitializeGroupSharedMemory_Re envGlossy (0, 0) (0, 0) (8, 8)
          sharedReZero).1
        (0, 0) ((0, 0) + (4, 4)) (8, 8) (envGlossy.LoadRoughness (0, 0))
        (envGlossy.LoadRayLength (0, 0))).1 <
      envGlossy.DISOCCLUSION_THRESHOLD := by
  rw [pick_shared_irrelevant envGlossy _ sharedReZero]
  norm_num [FFX_DNSR_Reflections_PickReprojection, pickSpiralSearch, pickBilinearSalvage,
    pickClampFinal, FFX_DNSR_Reflections_GetDisocclusionFactor,
    FFX_DNSR_Reflections_GetHitPositionReprojection,
    FFX_DNSR_Reflections_EstimateLocalNeighborhoodInGroup,
    GetContactHardenedRadiance, GetContactHardenedRadianceHistory,
    spiralOffsets, List.range', envGlossy, sharedReZero, dot3, saturate, fracQ, truncQ,
    FFX_DNSR_Reflections_LoadFromGroupSharedMemory_Re, neighborhoodOffsets, Vec4.scale,
    Vec3.scale, Vec4.add_def, Vec4.zero_def]

/-- Witness for claim C1 at a concrete environment and input where the
pixel is glossy and the returned disocclusion factor is below the
threshold. -/
theorem claim_C1_witness :
    (FFX_DNSR_Reflections_Reproject envGlossy (0, 0) (0, 0) (8, 8) 0 0 sharedReZero).filter
      (Event.isReprojectStoreAt (0, 0)) =
      [Event.store .RadianceReprojected (0, 0) (.vector ⟨0, 0, 0, 0⟩),
       Event.store .Variance (0, 0) (.scalar 1),
       Event.store .NumSamples (0, 0) (.scalar 1)] :=
  claim_C1_discard_invalid_history envGlossy (0, 0) (0, 0) (8, 8) 0 0 sharedReZero rfl
    claim_C1_witness_dis
